import Mathlib

/-!
Shallow embedding of the transaction lifecycle core of qoriib/event-mvp-backend:
the checkout handler (POST /api/transactions), the payment-proof handler
(POST /api/transactions/:id/proof), the status-update handler
(PUT /api/transactions/:id/status) and the expiry sweeper
(handleExpiredTransactions in src/workers/scheduler.ts).

Modelling conventions:
- Times are epoch milliseconds, as `Int`.
- Monetary inputs (priceIDR, promo value, minSpendIDR) are `Nat`; the stored
  pointsUsedIDR and totalPayableIDR are `Int` because the handler arithmetic
  can make them negative.
- JS `Math.floor((promo.value / 100) * subtotal)` is idealised as exact
  rational floor, i.e. Nat division `value * subtotal / 100` (IEEE doubles can
  be off by one on that floor for a few inputs; every statement below about
  the percentage discount is an exact-arithmetic statement).
- Prisma row updates by unique primary key are modelled as `List.map` guarded
  by the id; `findUnique` / `findFirst` as `List.find?`.
- The database is a record of lists; each handler is a pure function from the
  database (plus the request and the clock) to the new database and response.
-/

namespace EventMVP

/-- Transaction lifecycle states (`TxStatus` enum in the Prisma schema). -/
inductive TxStatus where
  | WAITING_PAYMENT
  | WAITING_CONFIRMATION
  | DONE
  | REJECTED
  | CANCELED
  | EXPIRED
  deriving DecidableEq, Repr

/-- Promotion discount kinds. -/
inductive PromoType where
  | PERCENT
  | FIXED
  deriving DecidableEq, Repr

/-- Promotion row: event-scoped code with a validity window.
`minSpendIDR` is in the schema but, notably, never read by the checkout
handler. -/
structure Promotion where
  eventId : Nat
  code : String
  type : PromoType
  value : Nat
  minSpendIDR : Nat
  startsAt : Int
  endsAt : Int
  deriving DecidableEq, Repr

/-- Ticket type row (price snapshot source). -/
structure TicketType where
  id : Nat
  priceIDR : Nat
  deriving DecidableEq, Repr

/-- Event row with its ticket types (the handler loads them with `include`). -/
structure Event where
  id : Nat
  ticketTypes : List TicketType
  deriving DecidableEq, Repr

/-- User row; only the points balance is relevant to the core. -/
structure User where
  id : Nat
  pointsBalance : Int
  deriving DecidableEq, Repr

/-- Line item child row of a transaction. -/
structure LineItem where
  ticketTypeId : Nat
  qty : Nat
  unitPriceIDR : Nat
  lineTotalIDR : Nat
  deriving DecidableEq, Repr

/-- Transaction (reservation) row. -/
structure Transaction where
  id : Nat
  userId : Nat
  eventId : Nat
  status : TxStatus
  totalBeforeIDR : Nat
  pointsUsedIDR : Int
  promoCode : Option String
  promoDiscountIDR : Nat
  totalPayableIDR : Int
  expiresAt : Int
  decisionDueAt : Option Int
  paymentProofUrl : Option String
  paymentProofAt : Option Int
  items : List LineItem
  deriving DecidableEq, Repr

/-- The persistent store: the tables the core touches. -/
structure DB where
  events : List Event
  promotions : List Promotion
  users : List User
  transactions : List Transaction
  deriving DecidableEq, Repr

/-- 2 hours in milliseconds (`2 * 60 * 60 * 1000` in the handler). -/
def twoHoursMs : Int := 2 * 60 * 60 * 1000

/-- 3 days in milliseconds (`3 * 24 * 60 * 60 * 1000` in the handler). -/
def threeDaysMs : Int := 3 * 24 * 60 * 60 * 1000

/-- Predicate of the checkout's `prisma.promotion.findFirst` where-clause:
same event, exact code match, `startsAt <= now`, `endsAt >= now`.
No condition on `minSpendIDR`. -/
def promoMatches (eventId : Nat) (code : String) (now : Int) (p : Promotion) : Bool :=
  p.eventId == eventId && p.code == code && decide (p.startsAt ≤ now) && decide (p.endsAt ≥ now)

/-- Outcome of the checkout handler: a created transaction, an early-return
client error (HTTP status and message), or the catch-all 500 path. -/
inductive CheckoutResult where
  | created (t : Transaction)
  | clientError (httpStatus : Nat) (msg : String)
  | serverError (msg : String)
  deriving DecidableEq, Repr

/-- The promo section of the checkout handler (`// === Apply promo ===`).
`none` is the hard 400 rejection of a supplied-but-unmatched code; `some d`
is the discount to apply (0 when no code was supplied).  JS `if (promoCode)`
is falsy for undefined/null and for the empty string.  PERCENT computes
`Math.floor((value / 100) * subtotal)`, FIXED uses `value` directly — with no
cap at the subtotal in either case, and no use of `minSpendIDR`. -/
def computePromoDiscount (db : DB) (eventId : Nat) (promoCode : Option String) (now : Int)
    (subtotal : Nat) : Option Nat :=
  match promoCode with
  | none => some 0
  | some c =>
    if c = "" then some 0
    else
      match db.promotions.find? (promoMatches eventId c now) with
      | none => none
      | some promo =>
        some (match promo.type with
              | .PERCENT => promo.value * subtotal / 100
              | .FIXED => promo.value)

/-- The points section of the checkout handler (`// === Apply points ===`):
`Math.min(user.pointsBalance, subtotal - promoDiscount)` when `usePoints` was
requested and the balance is positive, else 0. -/
def pointsRedeemed (usePoints : Bool) (balance : Int) (subtotal promoDiscount : Nat) : Int :=
  if usePoints && decide (balance > 0) then min balance ((subtotal : Int) - (promoDiscount : Int))
  else 0

/-- The row handed to `prisma.transaction.create` by the checkout handler:
`totalPayable = subtotal - promoDiscount - pointsUsed` (raw difference),
initial status `WAITING_CONFIRMATION` when `totalPayable <= 0` else
`WAITING_PAYMENT`, `expiresAt` now + 2h for WAITING_PAYMENT else now, and
`decisionDueAt` now + 3d for WAITING_CONFIRMATION else null. -/
def mkTransaction (newId userId eventId ticketTypeId qty subtotal promoDiscount : Nat)
    (pointsUsed : Int) (promoCode : Option String) (unitPrice : Nat) (now : Int) : Transaction :=
  let totalPayable : Int := (subtotal : Int) - (promoDiscount : Int) - pointsUsed
  let initialStatus : TxStatus :=
    if totalPayable ≤ 0 then .WAITING_CONFIRMATION else .WAITING_PAYMENT
  { id := newId
    userId := userId
    eventId := eventId
    status := initialStatus
    totalBeforeIDR := subtotal
    pointsUsedIDR := pointsUsed
    promoCode := promoCode
    promoDiscountIDR := promoDiscount
    totalPayableIDR := totalPayable
    expiresAt := if initialStatus = .WAITING_PAYMENT then now + twoHoursMs else now
    decisionDueAt :=
      if initialStatus = .WAITING_CONFIRMATION then some (now + threeDaysMs) else none
    paymentProofUrl := none
    paymentProofAt := none
    items := [{ ticketTypeId := ticketTypeId, qty := qty,
                unitPriceIDR := unitPrice, lineTotalIDR := subtotal }] }

/-- POST /api/transactions (checkout), embedding the handler of the
transactions route (src/unnamed/part_003 lines 46-176; the pricing and
points section, lines 52-104, is verbatim identical in
src/src/routes/transactions.ts lines 49-104).

`createOk` injects the outcome of the `prisma.transaction.create` call: the
handler runs the points decrement and the create as two separate awaits with
no surrounding transaction, so when the create throws, the catch-all returns
a 500 with the decrement already persisted.  `newId` stands for the generated
primary key, `now` for the wall clock. -/
def createTransaction (db : DB) (userId eventId ticketTypeId : Nat) (qty : Nat)
    (usePoints : Bool) (promoCode : Option String) (now : Int) (newId : Nat)
    (createOk : Bool) : DB × CheckoutResult :=
  match db.events.find? (fun e => e.id == eventId) with
  | none => (db, .clientError 404 ("Event not found"))
  | some event =>
    match event.ticketTypes.find? (fun t => t.id == ticketTypeId) with
    | none => (db, .clientError 400 ("Invalid ticket type"))
    | some ticketType =>
      let unitPrice := ticketType.priceIDR
      let subtotal := unitPrice * qty
      match computePromoDiscount db eventId promoCode now subtotal with
      | none => (db, .clientError 400 ("Invalid or expired promo code"))
      | some promoDiscount =>
        match db.users.find? (fun u => u.id == userId) with
        | none => (db, .clientError 404 ("User not found"))
        | some user =>
          let pointsUsed := pointsRedeemed usePoints user.pointsBalance subtotal promoDiscount
          let db1 : DB :=
            if usePoints && decide (user.pointsBalance > 0) then
              { db with users := db.users.map (fun u =>
                  if u.id == userId then { u with pointsBalance := u.pointsBalance - pointsUsed }
                  else u) }
            else db
          if createOk then
            let t := mkTransaction newId userId eventId ticketTypeId qty subtotal promoDiscount
                       pointsUsed promoCode unitPrice now
            ({ db1 with transactions := db1.transactions ++ [t] }, .created t)
          else
            (db1, .serverError ("Failed to create transaction"))

/-- The stored payable total of a checkout response, when one was created. -/
def checkoutPayable (r : CheckoutResult) : Option Int :=
  match r with
  | .created t => some t.totalPayableIDR
  | _ => none

/-- The stored promo discount of a checkout response, when one was created. -/
def checkoutDiscount (r : CheckoutResult) : Option Nat :=
  match r with
  | .created t => some t.promoDiscountIDR
  | _ => none

/-- The stored subtotal of a checkout response, when one was created. -/
def checkoutSubtotal (r : CheckoutResult) : Option Nat :=
  match r with
  | .created t => some t.totalBeforeIDR
  | _ => none

/-- Outcome of the payment-proof and status-update handlers: an early-return
error (HTTP status and message) or the updated row echoed back. -/
inductive UpdateResult where
  | err (httpStatus : Nat) (msg : String)
  | updated (t : Transaction)
  deriving DecidableEq, Repr

/-- POST /api/transactions/:id/proof, embedding the handler of
src/src/routes/transactions.ts lines 149-185.  The lookup is owner-scoped
(`findUnique({ where: { id, userId: req.user.id } })`), so a transaction owned
by someone else is indistinguishable from a missing one: both take the
404 "Transaction not found" early return.  There is no 403 path. -/
def submitPaymentProof (db : DB) (actorId txId : Nat) (proofUrl : String) (now : Int) :
    DB × UpdateResult :=
  match db.transactions.find? (fun t => t.id == txId && t.userId == actorId) with
  | none => (db, .err 404 ("Transaction not found"))
  | some tx =>
    if tx.status ≠ TxStatus.WAITING_PAYMENT then (db, .err 400 ("Invalid transaction state"))
    else
      let upd := fun (t : Transaction) =>
        { t with paymentProofUrl := some proofUrl
                 paymentProofAt := some now
                 status := TxStatus.WAITING_CONFIRMATION
                 decisionDueAt := some (now + threeDaysMs) }
      ({ db with transactions := db.transactions.map (fun t => if t.id == txId then upd t else t) },
       .updated (upd tx))

/-- The `["CANCELED", "REJECTED", "EXPIRED"].includes(status)` test of the
status-update handler: the statuses that trigger a points rollback credit. -/
def rollbackTriggers (s : TxStatus) : Bool :=
  s == TxStatus.CANCELED || s == TxStatus.REJECTED || s == TxStatus.EXPIRED

/-- Credit (or debit, for a negative delta) a user's points balance, as
`prisma.user.update({ data: { pointsBalance: { increment: amt } } })`. -/
def creditUser (users : List User) (uid : Nat) (amt : Int) : List User :=
  users.map (fun u => if u.id == uid then { u with pointsBalance := u.pointsBalance + amt } else u)

/-- PUT /api/transactions/:id/status, embedding the handler of
src/src/routes/transactions.ts lines 191-229 (src/unnamed/part_003
lines 269-324 is the same state change after its organizer-ownership guard,
which returns early without mutating anything).

The handler looks the row up, overwrites `status` with the requested value
unconditionally — there is no check of the current status, so no
terminal-state guard and no InvalidStateTransition error — and then, whenever
the requested value is CANCELED, REJECTED or EXPIRED, increments the owner's
balance by the row's `pointsUsedIDR`. -/
def updateTransactionStatus (db : DB) (txId : Nat) (newStatus : TxStatus) : DB × UpdateResult :=
  match db.transactions.find? (fun t => t.id == txId) with
  | none => (db, .err 404 ("Transaction not found"))
  | some tx =>
    let txs := db.transactions.map (fun t => if t.id == txId then { t with status := newStatus } else t)
    let users := if rollbackTriggers newStatus then creditUser db.users tx.userId tx.pointsUsedIDR
                 else db.users
    ({ db with transactions := txs, users := users }, .updated { tx with status := newStatus })

/-- Where-clause of the sweeper's first scan:
`status: "WAITING_PAYMENT", expiresAt: { lt: now }`. -/
def isExpireEligible (now : Int) (t : Transaction) : Bool :=
  t.status == TxStatus.WAITING_PAYMENT && decide (t.expiresAt < now)

/-- Where-clause of the sweeper's second scan:
`status: "WAITING_CONFIRMATION", decisionDueAt: { lt: now }` (a null
`decisionDueAt` never satisfies `lt`). -/
def isAutoCancelEligible (now : Int) (t : Transaction) : Bool :=
  t.status == TxStatus.WAITING_CONFIRMATION &&
    (match t.decisionDueAt with
     | some d => decide (d < now)
     | none => false)

/-- Effect of one sweep on one transaction row: eligible WAITING_PAYMENT rows
become EXPIRED, eligible WAITING_CONFIRMATION rows become CANCELED, everything
else is untouched.  (A row is never eligible for both: the statuses differ.) -/
def sweepTx (now : Int) (t : Transaction) : Transaction :=
  if isExpireEligible now t then { t with status := TxStatus.EXPIRED }
  else if isAutoCancelEligible now t then { t with status := TxStatus.CANCELED }
  else t

/-- Points credited to a row's owner by one sweep on behalf of that row:
`pointsUsedIDR` when the row is swept and `tx.pointsUsedIDR > 0`, else 0. -/
def sweepCredit (now : Int) (t : Transaction) : Int :=
  if (isExpireEligible now t || isAutoCancelEligible now t) && decide (t.pointsUsedIDR > 0) then
    t.pointsUsedIDR
  else 0

/-- Net credit one sweep applies to the balance of user `uid`: the sum of the
per-row credits over that user's rows. -/
def userSweepCredit (now : Int) (txs : List Transaction) (uid : Nat) : Int :=
  ((txs.filter (fun t => t.userId == uid)).map (sweepCredit now)).sum

/-- handleExpiredTransactions of src/src/workers/scheduler.ts lines 4-59.

The worker snapshots the eligible WAITING_PAYMENT rows, and for each one runs
a `prisma.$transaction` that sets the status to EXPIRED and, if
`pointsUsedIDR > 0`, increments the owner's balance; then it does the same for
overdue WAITING_CONFIRMATION rows with CANCELED.  Each row's status flip and
its credit are one atomic storage transaction in the code, modelled here as
components of the single state produced by this function.  The first phase
never produces a WAITING_CONFIRMATION row, so the second phase's snapshot
coincides with the initial table and the whole sweep is the pointwise
`sweepTx` on rows plus the summed `sweepCredit` per user. -/
def handleExpiredTransactions (db : DB) (now : Int) : DB :=
  { db with
    transactions := db.transactions.map (sweepTx now)
    users := db.users.map (fun u =>
      { u with pointsBalance := u.pointsBalance + userSweepCredit now db.transactions u.id }) }

/-! ### Concrete fixtures -/

/-- A reservation already in the terminal state DONE, which had consumed
100 points. -/
def doneTx : Transaction :=
  { id := 1, userId := 0, eventId := 5, status := .DONE, totalBeforeIDR := 100,
    pointsUsedIDR := 100, promoCode := none, promoDiscountIDR := 0, totalPayableIDR := 0,
    expiresAt := 0, decisionDueAt := none, paymentProofUrl := none, paymentProofAt := none,
    items := [] }

/-- Store holding `doneTx` and its owner with a zero balance. -/
def dbDone : DB :=
  { events := [], promotions := [], users := [{ id := 0, pointsBalance := 0 }],
    transactions := [doneTx] }

/-- A reservation awaiting the organizer's decision, which had consumed
100 points. -/
def wcTx : Transaction :=
  { id := 1, userId := 0, eventId := 5, status := .WAITING_CONFIRMATION, totalBeforeIDR := 100,
    pointsUsedIDR := 100, promoCode := none, promoDiscountIDR := 0, totalPayableIDR := 0,
    expiresAt := 0, decisionDueAt := some 50, paymentProofUrl := none, paymentProofAt := none,
    items := [] }

/-- Store holding `wcTx` and its owner with a zero balance. -/
def dbWaiting : DB :=
  { events := [], promotions := [], users := [{ id := 0, pointsBalance := 0 }],
    transactions := [wcTx] }

/-- A FIXED promotion worth 100000 IDR on event 1, valid on the window
[0, 100]. -/
def fixedPromo : Promotion :=
  { eventId := 1, code := "BIG", type := .FIXED, value := 100000, minSpendIDR := 0,
    startsAt := 0, endsAt := 100 }

/-- Store with one event selling a 50000 IDR ticket and the oversized
`fixedPromo`. -/
def dbFixedPromo : DB :=
  { events := [{ id := 1, ticketTypes := [{ id := 1, priceIDR := 50000 }] }],
    promotions := [fixedPromo],
    users := [{ id := 7, pointsBalance := 0 }],
    transactions := [] }

/-- Store for the atomicity scenario: a user with 500 points and an event
selling a 300 IDR ticket. -/
def dbPoints : DB :=
  { events := [{ id := 2, ticketTypes := [{ id := 4, priceIDR := 300 }] }],
    promotions := [],
    users := [{ id := 3, pointsBalance := 500 }],
    transactions := [] }

/-- A 10-percent promotion on event 1 with a 100000 IDR minimum spend,
valid on the window [0, 100]. -/
def minSpendPromo : Promotion :=
  { eventId := 1, code := "MIN", type := .PERCENT, value := 10, minSpendIDR := 100000,
    startsAt := 0, endsAt := 100 }

/-- Store with one event selling a 50000 IDR ticket and `minSpendPromo`
(whose minimum spend exceeds that subtotal). -/
def dbMinSpend : DB :=
  { events := [{ id := 1, ticketTypes := [{ id := 1, priceIDR := 50000 }] }],
    promotions := [minSpendPromo],
    users := [{ id := 7, pointsBalance := 0 }],
    transactions := [] }

/-- A WAITING_PAYMENT reservation with 10 points held, whose payment deadline
is time 5. -/
def lateTx : Transaction :=
  { id := 1, userId := 0, eventId := 5, status := .WAITING_PAYMENT, totalBeforeIDR := 100,
    pointsUsedIDR := 10, promoCode := none, promoDiscountIDR := 0, totalPayableIDR := 100,
    expiresAt := 5, decisionDueAt := none, paymentProofUrl := none, paymentProofAt := none,
    items := [] }

/-- Store holding `lateTx` and its owner with a zero balance. -/
def dbLate : DB :=
  { events := [], promotions := [], users := [{ id := 0, pointsBalance := 0 }],
    transactions := [lateTx] }

/-- The reservation created by checking out one 50000 IDR ticket of event 1
against `dbFixedPromo` with no promo code and no points, at time 10 with
fresh id 99. -/
def plainCheckoutTx : Transaction :=
  { id := 99, userId := 7, eventId := 1, status := .WAITING_PAYMENT, totalBeforeIDR := 50000,
    pointsUsedIDR := 0, promoCode := none, promoDiscountIDR := 0, totalPayableIDR := 50000,
    expiresAt := 7200010, decisionDueAt := none, paymentProofUrl := none, paymentProofAt := none,
    items := [{ ticketTypeId := 1, qty := 1, unitPriceIDR := 50000, lineTotalIDR := 50000 }] }

/-- The reservation created by checking out one 50000 IDR ticket of event 1
against `dbMinSpend` with promo code MIN and no points, at time 10 with fresh
id 99. -/
def percentCheckoutTx : Transaction :=
  { id := 99, userId := 7, eventId := 1, status := .WAITING_PAYMENT, totalBeforeIDR := 50000,
    pointsUsedIDR := 0, promoCode := some ("MIN"), promoDiscountIDR := 5000,
    totalPayableIDR := 45000, expiresAt := 7200010, decisionDueAt := none,
    paymentProofUrl := none, paymentProofAt := none,
    items := [{ ticketTypeId := 1, qty := 1, unitPriceIDR := 50000, lineTotalIDR := 50000 }] }

/-- The reservation created by checking out one 300 IDR ticket of event 2
against `dbPoints` with `usePoints`, at time 10 with fresh id 99: the 500
balance covers the 300 subtotal, so the payable total is 0. -/
def freeCheckoutTx : Transaction :=
  { id := 99, userId := 3, eventId := 2, status := .WAITING_CONFIRMATION, totalBeforeIDR := 300,
    pointsUsedIDR := 300, promoCode := none, promoDiscountIDR := 0, totalPayableIDR := 0,
    expiresAt := 10, decisionDueAt := some 259200010, paymentProofUrl := none,
    paymentProofAt := none,
    items := [{ ticketTypeId := 4, qty := 1, unitPriceIDR := 300, lineTotalIDR := 300 }] }

/-- A user with a zero points balance. -/
def userZero : User := { id := 0, pointsBalance := 0 }

/-- The spec's sweep scenario: a WAITING_PAYMENT reservation holding 20000
points whose payment deadline (5) has passed. -/
def sweepTx20k : Transaction :=
  { id := 1, userId := 0, eventId := 5, status := .WAITING_PAYMENT, totalBeforeIDR := 20000,
    pointsUsedIDR := 20000, promoCode := none, promoDiscountIDR := 0, totalPayableIDR := 20000,
    expiresAt := 5, decisionDueAt := none, paymentProofUrl := none, paymentProofAt := none,
    items := [] }

/-- Store holding `sweepTx20k` and its owner `userZero`. -/
def dbSweep : DB :=
  { events := [], promotions := [], users := [userZero], transactions := [sweepTx20k] }

/-- A WAITING_PAYMENT reservation owned by user 5. -/
def otherOwnerTx : Transaction :=
  { id := 1, userId := 5, eventId := 2, status := .WAITING_PAYMENT, totalBeforeIDR := 100,
    pointsUsedIDR := 0, promoCode := none, promoDiscountIDR := 0, totalPayableIDR := 100,
    expiresAt := 50, decisionDueAt := none, paymentProofUrl := none, paymentProofAt := none,
    items := [] }

/-- Store holding only `otherOwnerTx`. -/
def dbOtherOwner : DB :=
  { events := [], promotions := [], users := [], transactions := [otherOwnerTx] }

/-! ### Claims settled on concrete inputs -/

/-- C1: refuted by the code — the status-update handler has no terminal-state
guard.  On a reservation already in the terminal state DONE, a cancel request
does not fail with any InvalidStateTransition error: it answers 200 with the
row, overwrites the status field with CANCELED, and credits the owner's
balance with the reservation's 100 held points. -/
theorem c1_terminal_update_goes_through :
    (updateTransactionStatus dbDone 1 TxStatus.CANCELED).2
        = .updated { doneTx with status := TxStatus.CANCELED } ∧
    (updateTransactionStatus dbDone 1 TxStatus.CANCELED).1.transactions.map Transaction.status
        = [TxStatus.CANCELED] ∧
    (updateTransactionStatus dbDone 1 TxStatus.CANCELED).1.users.map User.pointsBalance
        = [100] := by
  decide

/-- C2: refuted by the code — the rollback credit is re-applied on every
status update into a point-forfeiting status.  A WAITING_CONFIRMATION
reservation holding 100 points is rejected (one legitimate credit of 100) and
then, although it already sits in the point-forfeiting terminal state
REJECTED, a further cancel request credits the same 100 again: the owner's
balance ends at 200 = 2 × pointsUsedIDR. -/
theorem c2_rollback_credit_applied_twice :
    ((updateTransactionStatus
        (updateTransactionStatus dbWaiting 1 TxStatus.REJECTED).1
        1 TxStatus.CANCELED).1).users.map User.pointsBalance = [200] ∧
    wcTx.pointsUsedIDR = 100 := by
  decide

/-- C3 counterexample: the stored payable is the raw difference, with no
floor at zero.  With a 50000 IDR subtotal and the valid FIXED 100000 promo,
the created reservation stores totalPayableIDR = −50000, which is negative
and differs from max(0, subtotal − discount − points) = 0. -/
theorem c3_counterexample_negative_payable :
    checkoutPayable (createTransaction dbFixedPromo 7 1 1 1 false (some ("BIG")) 10 99 true).2
        = some (-50000) ∧
    (-50000 : Int) < 0 ∧ max (0 : Int) (-50000) = 0 := by
  decide

/-- C4 counterexample: a FIXED promotion's value is applied with no cap at
the subtotal.  With a 50000 IDR subtotal and the valid FIXED 100000 promo,
the stored discount is 100000, which exceeds the subtotal. -/
theorem c4_counterexample_uncapped_fixed_discount :
    checkoutDiscount (createTransaction dbFixedPromo 7 1 1 1 false (some ("BIG")) 10 99 true).2
        = some 100000 ∧
    checkoutSubtotal (createTransaction dbFixedPromo 7 1 1 1 false (some ("BIG")) 10 99 true).2
        = some 50000 ∧
    (50000 : Nat) < 100000 := by
  decide

/-- C6: refuted by the code — the points debit and the reservation insert are
two separate writes with no surrounding storage transaction.  When the insert
fails (createOk = false), the handler answers the catch-all 500, no
reservation exists, yet the user's balance has already been debited from 500
down to 200. -/
theorem c6_debit_survives_failed_create :
    (createTransaction dbPoints 3 2 4 1 true none 10 99 false).2
        = .serverError ("Failed to create transaction") ∧
    (createTransaction dbPoints 3 2 4 1 true none 10 99 false).1.users.map User.pointsBalance
        = [200] ∧
    (createTransaction dbPoints 3 2 4 1 true none 10 99 false).1.transactions = [] := by
  decide

/-- C7 counterexample: the checkout never reads minSpendIDR.  With a 50000
IDR subtotal, strictly below `minSpendPromo`'s 100000 minimum spend, the
checkout is accepted and the 10-percent discount of 5000 is applied. -/
theorem c7_counterexample_minspend_ignored :
    checkoutPayable (createTransaction dbMinSpend 7 1 1 1 false (some ("MIN")) 10 99 true).2
        = some 45000 ∧
    checkoutDiscount (createTransaction dbMinSpend 7 1 1 1 false (some ("MIN")) 10 99 true).2
        = some 5000 ∧
    checkoutSubtotal (createTransaction dbMinSpend 7 1 1 1 false (some ("MIN")) 10 99 true).2
        = some 50000 ∧
    minSpendPromo.minSpendIDR = 100000 ∧ (50000 : Nat) < 100000 := by
  decide

/-- C9 counterexample: two consecutive sweeps with a later second clock are
not idempotent.  `lateTx`'s deadline (5) lies between the first sweep's clock
(3) and the second's (10): the first sweep changes nothing, the second finds
one eligible reservation, expires it, and credits its 10 held points. -/
theorem c9_counterexample_later_clock :
    (handleExpiredTransactions dbLate 3).transactions.map Transaction.status
        = [TxStatus.WAITING_PAYMENT] ∧
    (handleExpiredTransactions dbLate 3).users.map User.pointsBalance = [0] ∧
    ((handleExpiredTransactions dbLate 3).transactions.filter
        (fun t => isExpireEligible 10 t || isAutoCancelEligible 10 t)).length = 1 ∧
    (handleExpiredTransactions (handleExpiredTransactions dbLate 3) 10).transactions.map
        Transaction.status = [TxStatus.EXPIRED] ∧
    (handleExpiredTransactions (handleExpiredTransactions dbLate 3) 10).users.map
        User.pointsBalance = [10] := by
  decide

/-! ### Helper lemmas -/

/-- Success shape of the checkout: a `created t` response means every lookup
succeeded, the create was reached with `createOk`, and `t` is exactly the row
built by `mkTransaction` from the looked-up price, the computed discount and
the redeemed points. -/
theorem createTransaction_created (db : DB) (userId eventId ticketTypeId qty : Nat)
    (usePoints : Bool) (promoCode : Option String) (now : Int) (newId : Nat) (createOk : Bool)
    (t : Transaction)
    (h : (createTransaction db userId eventId ticketTypeId qty usePoints promoCode now newId
            createOk).2 = .created t) :
    ∃ event ticketType promoDiscount user,
      db.events.find? (fun e => e.id == eventId) = some event ∧
      event.ticketTypes.find? (fun tt => tt.id == ticketTypeId) = some ticketType ∧
      computePromoDiscount db eventId promoCode now (ticketType.priceIDR * qty)
          = some promoDiscount ∧
      db.users.find? (fun u => u.id == userId) = some user ∧
      t = mkTransaction newId userId eventId ticketTypeId qty (ticketType.priceIDR * qty)
            promoDiscount
            (pointsRedeemed usePoints user.pointsBalance (ticketType.priceIDR * qty) promoDiscount)
            promoCode ticketType.priceIDR now := by
  unfold createTransaction at h
  rcases hev : db.events.find? (fun e => e.id == eventId) with _ | event <;>
    simp only [hev] at h
  · simp at h
  rcases htt : event.ticketTypes.find? (fun tt => tt.id == ticketTypeId) with _ | ticketType <;>
    simp only [htt] at h
  · simp at h
  rcases hpd : computePromoDiscount db eventId promoCode now (ticketType.priceIDR * qty)
      with _ | promoDiscount <;> simp only [hpd] at h
  · simp at h
  rcases huser : db.users.find? (fun u => u.id == userId) with _ | user <;>
    simp only [huser] at h
  · simp at h
  cases createOk
  · simp at h
  · refine ⟨event, ticketType, promoDiscount, user, hev, htt, hpd, huser, ?_⟩
    simpa using h.symm

/-- The redeemed points never exceed `subtotal - promoDiscount` when the
discount does not exceed the subtotal. -/
theorem pointsRedeemed_le (usePoints : Bool) (balance : Int) (subtotal promoDiscount : Nat)
    (h : (promoDiscount : Int) ≤ (subtotal : Int)) :
    pointsRedeemed usePoints balance subtotal promoDiscount
      ≤ (subtotal : Int) - (promoDiscount : Int) := by
  unfold pointsRedeemed
  split
  · exact min_le_right _ _
  · omega

/-- Status, decision deadline and payment deadline of the created row, as a
function of the sign of its payable total. -/
theorem mkTransaction_fields (newId userId eventId ticketTypeId qty subtotal promoDiscount : Nat)
    (pointsUsed : Int) (promoCode : Option String) (unitPrice : Nat) (now : Int) :
    ((subtotal : Int) - (promoDiscount : Int) - pointsUsed ≤ 0 →
      (mkTransaction newId userId eventId ticketTypeId qty subtotal promoDiscount pointsUsed
          promoCode unitPrice now).status = TxStatus.WAITING_CONFIRMATION ∧
      (mkTransaction newId userId eventId ticketTypeId qty subtotal promoDiscount pointsUsed
          promoCode unitPrice now).decisionDueAt = some (now + threeDaysMs) ∧
      (mkTransaction newId userId eventId ticketTypeId qty subtotal promoDiscount pointsUsed
          promoCode unitPrice now).expiresAt = now) ∧
    (0 < (subtotal : Int) - (promoDiscount : Int) - pointsUsed →
      (mkTransaction newId userId eventId ticketTypeId qty subtotal promoDiscount pointsUsed
          promoCode unitPrice now).status = TxStatus.WAITING_PAYMENT ∧
      (mkTransaction newId userId eventId ticketTypeId qty subtotal promoDiscount pointsUsed
          promoCode unitPrice now).expiresAt = now + twoHoursMs ∧
      (mkTransaction newId userId eventId ticketTypeId qty subtotal promoDiscount pointsUsed
          promoCode unitPrice now).decisionDueAt = none) := by
  constructor
  · intro hle
    simp only [mkTransaction]
    rw [if_pos hle]
    simp
  · intro hpos
    simp only [mkTransaction]
    rw [if_neg (by omega : ¬ ((subtotal : Int) - (promoDiscount : Int) - pointsUsed ≤ 0))]
    simp

/-- A row that one sweep just produced is eligible for neither of the next
sweep's two scans (at the same clock). -/
theorem sweepTx_not_eligible (now : Int) (t : Transaction) :
    isExpireEligible now (sweepTx now t) = false ∧
    isAutoCancelEligible now (sweepTx now t) = false := by
  unfold sweepTx
  split
  · simp [isExpireEligible, isAutoCancelEligible]
  · split
    · simp [isExpireEligible, isAutoCancelEligible]
    · constructor <;> simp_all

/-- The sweep leaves an ineligible row untouched. -/
theorem sweepTx_of_not_eligible (now : Int) (t : Transaction)
    (h1 : isExpireEligible now t = false) (h2 : isAutoCancelEligible now t = false) :
    sweepTx now t = t := by
  simp [sweepTx, h1, h2]

/-- A row that one sweep just produced earns no credit from the next sweep
(at the same clock). -/
theorem sweepCredit_sweepTx (now : Int) (t : Transaction) :
    sweepCredit now (sweepTx now t) = 0 := by
  have h := sweepTx_not_eligible now t
  simp [sweepCredit, h.1, h.2]

/-- Mapping a function that fixes every element of a list is the identity. -/
theorem listMapFixpoint {α : Type} (f : α → α) :
    ∀ (l : List α), (∀ x ∈ l, f x = x) → l.map f = l
  | [], _ => rfl
  | a :: l, h => by
    have ha : f a = a := h a (by simp)
    have hl : l.map f = l := listMapFixpoint f l (fun x hx => h x (by simp [hx]))
    simp [ha, hl]

/-! ### Quantified claims -/

/-- C3 (amended): for every successful checkout, the stored `totalPayableIDR`
is the raw difference `totalBeforeIDR - promoDiscountIDR - pointsUsedIDR`
(no floor at zero), and it is nonnegative whenever the discount does not
exceed the subtotal — in particular whenever no promo or a PERCENT promo with
value ≤ 100 applies.  (`c3_counterexample_negative_payable` shows the
original max(0, ·) claim fails for a FIXED promo exceeding the subtotal.) -/
theorem c3_payable_formula (db : DB) (userId eventId ticketTypeId qty : Nat)
    (usePoints : Bool) (promoCode : Option String) (now : Int) (newId : Nat) (t : Transaction)
    (h : (createTransaction db userId eventId ticketTypeId qty usePoints promoCode now newId
            true).2 = .created t) :
    t.totalPayableIDR = (t.totalBeforeIDR : Int) - (t.promoDiscountIDR : Int) - t.pointsUsedIDR ∧
    ((t.promoDiscountIDR : Int) ≤ (t.totalBeforeIDR : Int) → 0 ≤ t.totalPayableIDR) := by
  obtain ⟨ev, tt, d, u, _, _, _, _, rfl⟩ :=
    createTransaction_created db userId eventId ticketTypeId qty usePoints promoCode now newId
      true t h
  constructor
  · rfl
  · intro hd
    have hb := pointsRedeemed_le usePoints u.pointsBalance (tt.priceIDR * qty) d hd
    show (0:Int) ≤ ((tt.priceIDR * qty : Nat) : Int) - (d : Int) -
      pointsRedeemed usePoints u.pointsBalance (tt.priceIDR * qty) d
    omega

/-- Witness for `c3_payable_formula`: the plain 50000 IDR checkout against
`dbFixedPromo` (no promo, no points). -/
theorem c3_payable_formula_witness :
    plainCheckoutTx.totalPayableIDR
        = (plainCheckoutTx.totalBeforeIDR : Int) - (plainCheckoutTx.promoDiscountIDR : Int)
          - plainCheckoutTx.pointsUsedIDR ∧
    ((plainCheckoutTx.promoDiscountIDR : Int) ≤ (plainCheckoutTx.totalBeforeIDR : Int) →
        0 ≤ plainCheckoutTx.totalPayableIDR) :=
  c3_payable_formula dbFixedPromo 7 1 1 1 false none 10 99 plainCheckoutTx (by decide)

/-- C4 (amended): for every successful checkout with a supplied promo code
that matched promotion `p`, the stored discount is
`floor(value / 100 × subtotal)` for PERCENT and `value` (uncapped) for FIXED;
the discount is bounded by the subtotal for PERCENT promos with value ≤ 100,
but not in general (`c4_counterexample_uncapped_fixed_discount`). -/
theorem c4_discount_formula (db : DB) (userId eventId ticketTypeId qty : Nat)
    (usePoints : Bool) (c : String) (now : Int) (newId : Nat) (createOk : Bool)
    (p : Promotion) (t : Transaction)
    (hc : c ≠ "")
    (hp : db.promotions.find? (promoMatches eventId c now) = some p)
    (h : (createTransaction db userId eventId ticketTypeId qty usePoints (some c) now newId
            createOk).2 = .created t) :
    t.promoDiscountIDR =
      (match p.type with
       | PromoType.PERCENT => p.value * t.totalBeforeIDR / 100
       | PromoType.FIXED => p.value) ∧
    (p.type = PromoType.PERCENT → p.value ≤ 100 → t.promoDiscountIDR ≤ t.totalBeforeIDR) := by
  obtain ⟨ev, tt, d, u, hev, htt, hpd, hu, rfl⟩ :=
    createTransaction_created db userId eventId ticketTypeId qty usePoints (some c) now newId
      createOk t h
  simp only [computePromoDiscount, if_neg hc, hp] at hpd
  cases Option.some.inj hpd
  constructor
  · rfl
  · intro hpt hv
    show (match p.type with
       | PromoType.PERCENT => p.value * (tt.priceIDR * qty) / 100
       | PromoType.FIXED => p.value) ≤ tt.priceIDR * qty
    rw [hpt]
    calc p.value * (tt.priceIDR * qty) / 100
        ≤ 100 * (tt.priceIDR * qty) / 100 :=
          Nat.div_le_div_right (Nat.mul_le_mul_right _ hv)
      _ = tt.priceIDR * qty := Nat.mul_div_cancel_left _ (by norm_num)

/-- Witness for `c4_discount_formula`: the 10-percent MIN promo on a 50000
IDR subtotal yields a 5000 discount, below the subtotal. -/
theorem c4_discount_formula_witness :
    percentCheckoutTx.promoDiscountIDR =
      (match minSpendPromo.type with
       | PromoType.PERCENT => minSpendPromo.value * percentCheckoutTx.totalBeforeIDR / 100
       | PromoType.FIXED => minSpendPromo.value) ∧
    (minSpendPromo.type = PromoType.PERCENT → minSpendPromo.value ≤ 100 →
        percentCheckoutTx.promoDiscountIDR ≤ percentCheckoutTx.totalBeforeIDR) :=
  c4_discount_formula dbMinSpend 7 1 1 1 false ("MIN") 10 99 true minSpendPromo
    percentCheckoutTx (by decide) (by decide) (by decide)

/-- C5: a successful checkout whose stored payable total is 0 starts in
WAITING_CONFIRMATION with `decisionDueAt` = now + 3 days and `expiresAt` set
to the (meaningless) creation time; one whose payable total is positive
starts in WAITING_PAYMENT with `expiresAt` = now + 2 hours and no
`decisionDueAt`. -/
theorem c5_initial_state (db : DB) (userId eventId ticketTypeId qty : Nat)
    (usePoints : Bool) (promoCode : Option String) (now : Int) (newId : Nat) (t : Transaction)
    (h : (createTransaction db userId eventId ticketTypeId qty usePoints promoCode now newId
            true).2 = .created t) :
    (t.totalPayableIDR = 0 →
        t.status = TxStatus.WAITING_CONFIRMATION ∧
        t.decisionDueAt = some (now + threeDaysMs) ∧
        t.expiresAt = now) ∧
    (0 < t.totalPayableIDR →
        t.status = TxStatus.WAITING_PAYMENT ∧
        t.expiresAt = now + twoHoursMs ∧
        t.decisionDueAt = none) := by
  obtain ⟨ev, tt, d, u, hev, htt, hpd, hu, rfl⟩ :=
    createTransaction_created db userId eventId ticketTypeId qty usePoints promoCode now newId
      true t h
  have hpay : (mkTransaction newId userId eventId ticketTypeId qty (tt.priceIDR * qty) d
      (pointsRedeemed usePoints u.pointsBalance (tt.priceIDR * qty) d)
      promoCode tt.priceIDR now).totalPayableIDR
      = ((tt.priceIDR * qty : Nat) : Int) - (d : Int) -
        pointsRedeemed usePoints u.pointsBalance (tt.priceIDR * qty) d := rfl
  have hm := mkTransaction_fields newId userId eventId ticketTypeId qty (tt.priceIDR * qty) d
    (pointsRedeemed usePoints u.pointsBalance (tt.priceIDR * qty) d) promoCode tt.priceIDR now
  constructor
  · intro h0
    rw [hpay] at h0
    exact hm.1 (by omega)
  · intro h0
    rw [hpay] at h0
    exact hm.2 (by omega)

/-- Witness for `c5_initial_state`: the fully-points-covered checkout against
`dbPoints` (payable 0 → WAITING_CONFIRMATION, decision due at 259200010). -/
theorem c5_initial_state_witness :
    (freeCheckoutTx.totalPayableIDR = 0 →
        freeCheckoutTx.status = TxStatus.WAITING_CONFIRMATION ∧
        freeCheckoutTx.decisionDueAt = some ((10 : Int) + threeDaysMs) ∧
        freeCheckoutTx.expiresAt = 10) ∧
    (0 < freeCheckoutTx.totalPayableIDR →
        freeCheckoutTx.status = TxStatus.WAITING_PAYMENT ∧
        freeCheckoutTx.expiresAt = (10 : Int) + twoHoursMs ∧
        freeCheckoutTx.decisionDueAt = none) :=
  c5_initial_state dbPoints 3 2 4 1 true none 10 99 freeCheckoutTx (by decide)

/-- C7 (amended): a checkout that supplies a (nonempty) promo code is
rejected outright with 400 "Invalid or expired promo code" — database
untouched, no reservation, no zero-discount fallback — exactly when no
promotion of the target event matches the code with the current time inside
[startsAt, endsAt].  The promo's `minSpendIDR` plays no role
(`c7_counterexample_minspend_ignored`). -/
theorem c7_promo_hard_rejection (db : DB) (userId eventId ticketTypeId qty : Nat)
    (usePoints : Bool) (c : String) (now : Int) (newId : Nat) (createOk : Bool)
    (ev : Event) (tt : TicketType)
    (hc : c ≠ "")
    (hev : db.events.find? (fun e => e.id == eventId) = some ev)
    (htt : ev.ticketTypes.find? (fun t => t.id == ticketTypeId) = some tt) :
    db.promotions.find? (promoMatches eventId c now) = none ↔
      createTransaction db userId eventId ticketTypeId qty usePoints (some c) now newId createOk
        = (db, .clientError 400 ("Invalid or expired promo code")) := by
  constructor
  · intro hnone
    unfold createTransaction
    simp only [hev, htt]
    have : computePromoDiscount db eventId (some c) now (tt.priceIDR * qty) = none := by
      simp [computePromoDiscount, hc, hnone]
    simp [this]
  · intro hres
    rcases hfind : db.promotions.find? (promoMatches eventId c now) with _ | p
    · rfl
    · exfalso
      unfold createTransaction at hres
      simp only [hev, htt] at hres
      have hpd : computePromoDiscount db eventId (some c) now (tt.priceIDR * qty)
          = some (match p.type with
                  | PromoType.PERCENT => p.value * (tt.priceIDR * qty) / 100
                  | PromoType.FIXED => p.value) := by
        simp [computePromoDiscount, hc, hfind]
      rw [hpd] at hres
      rcases hu : db.users.find? (fun u => u.id == userId) with _ | user <;>
        simp only [hu] at hres
      · simp at hres
      · cases createOk <;> simp at hres

/-- Witness for `c7_promo_hard_rejection`: code NOPE matches no promotion of
`dbMinSpend`, so the checkout is the hard 400 rejection. -/
theorem c7_promo_hard_rejection_witness :
    dbMinSpend.promotions.find? (promoMatches 1 ("NOPE") 10) = none ↔
      createTransaction dbMinSpend 7 1 1 1 false (some ("NOPE")) 10 99 true
        = (dbMinSpend, .clientError 400 ("Invalid or expired promo code")) :=
  c7_promo_hard_rejection dbMinSpend 7 1 1 1 false ("NOPE") 10 99 true
    { id := 1, ticketTypes := [{ id := 1, priceIDR := 50000 }] }
    { id := 1, priceIDR := 50000 }
    (by decide) (by decide) (by decide)

/-- C8: one sweep at time `now` moves a WAITING_PAYMENT reservation with
`expiresAt < now` to EXPIRED and, when it holds a positive `pointsUsedIDR`
and is its owner's only reservation, increases that owner's balance by
exactly `pointsUsedIDR` (once): the status flip and the credit are two
components of the single state this sweep produces, mirroring the
`prisma.$transaction` that applies them atomically in the worker. -/
theorem c8_sweep_expires_and_credits (db : DB) (now : Int) (i j : Nat)
    (tx : Transaction) (u : User)
    (htx : db.transactions[i]? = some tx)
    (hwp : tx.status = TxStatus.WAITING_PAYMENT)
    (hexp : tx.expiresAt < now)
    (hpts : 0 < tx.pointsUsedIDR)
    (honly : db.transactions.filter (fun t => t.userId == tx.userId) = [tx])
    (hu : db.users[j]? = some u)
    (huid : u.id = tx.userId) :
    (handleExpiredTransactions db now).transactions[i]?
        = some { tx with status := TxStatus.EXPIRED } ∧
    (handleExpiredTransactions db now).users[j]?
        = some { u with pointsBalance := u.pointsBalance + tx.pointsUsedIDR } := by
  constructor
  · simp only [handleExpiredTransactions, List.getElem?_map, htx, Option.map_some']
    have : sweepTx now tx = { tx with status := TxStatus.EXPIRED } := by
      simp [sweepTx, isExpireEligible, hwp, hexp]
    rw [this]
  · simp only [handleExpiredTransactions, List.getElem?_map, hu, Option.map_some']
    have hcred : userSweepCredit now db.transactions u.id = tx.pointsUsedIDR := by
      rw [huid]
      unfold userSweepCredit
      rw [honly]
      simp [sweepCredit, isExpireEligible, hwp, hexp, hpts]
    rw [hcred]

/-- Witness for `c8_sweep_expires_and_credits`: the spec's own scenario —
`sweepTx20k` (WAITING_PAYMENT, expiresAt 5, 20000 points) swept at time 10
becomes EXPIRED and `userZero`'s balance rises by exactly 20000. -/
theorem c8_sweep_expires_and_credits_witness :
    (handleExpiredTransactions dbSweep 10).transactions[0]?
        = some { sweepTx20k with status := TxStatus.EXPIRED } ∧
    (handleExpiredTransactions dbSweep 10).users[0]?
        = some { userZero with
                 pointsBalance := userZero.pointsBalance + sweepTx20k.pointsUsedIDR } :=
  c8_sweep_expires_and_credits dbSweep 10 0 0 sweepTx20k userZero
    (by decide) (by decide) (by decide) (by decide) (by decide) (by decide) (by decide)

/-- C9 (amended): one sweep followed by a second sweep at the same clock is
idempotent — the second sweep's two scans find zero eligible reservations and
the second sweep changes nothing (zero status changes, zero balance
mutations).  (`c9_counterexample_later_clock` shows idempotence fails for a
strictly later second clock, because a deadline may pass between the two
sweeps.) -/
theorem c9_sweep_idempotent_same_clock (db : DB) (now : Int) :
    (handleExpiredTransactions db now).transactions.filter
        (fun t => isExpireEligible now t || isAutoCancelEligible now t) = [] ∧
    handleExpiredTransactions (handleExpiredTransactions db now) now
        = handleExpiredTransactions db now := by
  obtain ⟨evs, prs, us, txs⟩ := db
  constructor
  · apply List.filter_eq_nil_iff.mpr
    intro t ht
    simp only [handleExpiredTransactions, List.mem_map] at ht
    rcases ht with ⟨t0, _, rfl⟩
    have h := sweepTx_not_eligible now t0
    simp [h.1, h.2]
  · have hcredit0 : ∀ uid,
        userSweepCredit now (txs.map (sweepTx now)) uid = 0 := by
      intro uid
      unfold userSweepCredit
      apply List.sum_eq_zero
      intro x hx
      simp only [List.mem_map, List.mem_filter] at hx
      rcases hx with ⟨t0, ⟨⟨t1, _, rfl⟩, _⟩, rfl⟩
      exact sweepCredit_sweepTx now t1
    show handleExpiredTransactions
        { events := evs, promotions := prs,
          users := us.map (fun u =>
            { u with pointsBalance := u.pointsBalance + userSweepCredit now txs u.id }),
          transactions := txs.map (sweepTx now) } now
      = _
    unfold handleExpiredTransactions
    simp only [DB.mk.injEq, true_and]
    constructor
    · apply listMapFixpoint
      intro u hu
      rcases List.mem_map.mp hu with ⟨u0, _, rfl⟩
      have := hcredit0 ({ u0 with
        pointsBalance := u0.pointsBalance + userSweepCredit now txs u0.id }).id
      rw [this]
      simp
    · apply listMapFixpoint
      intro x hx
      rcases List.mem_map.mp hx with ⟨t1, _, rfl⟩
      have h := sweepTx_not_eligible now t1
      exact sweepTx_of_not_eligible now _ h.1 h.2

/-- C10: a payment-proof submission for an existing reservation owned by a
different user takes the owner-scoped lookup's miss branch: it fails with 404
"Transaction not found" (the same NotFound as a missing id, not a Forbidden)
and the store is returned unchanged. -/
theorem c10_wrong_owner_not_found (db : DB) (actorId txId : Nat) (proofUrl : String) (now : Int)
    (hex : ∃ t ∈ db.transactions, t.id = txId)
    (hown : ∀ t ∈ db.transactions, t.id = txId → t.userId ≠ actorId) :
    submitPaymentProof db actorId txId proofUrl now
      = (db, .err 404 ("Transaction not found")) := by
  unfold submitPaymentProof
  have hnone : db.transactions.find? (fun t => t.id == txId && t.userId == actorId) = none := by
    apply List.find?_eq_none.mpr
    intro t ht
    simp only [Bool.and_eq_true, beq_iff_eq, not_and]
    intro h1 h2
    exact hown t ht h1 h2
  rw [hnone]

/-- Witness for `c10_wrong_owner_not_found`: reservation 1 exists in
`dbOtherOwner` but belongs to user 5, so actor 7's proof submission is a 404
and the store is unchanged. -/
theorem c10_wrong_owner_not_found_witness :
    submitPaymentProof dbOtherOwner 7 1 ("proof.png") 0
      = (dbOtherOwner, .err 404 ("Transaction not found")) :=
  c10_wrong_owner_not_found dbOtherOwner 7 1 ("proof.png") 0 (by decide) (by decide)

end EventMVP
